import Mathlib

/-!
Shallow embedding of the Dashboard_Backend Flask application (src/app.py).

Code fragments, prompts and messages are represented as lists of characters
(`Text`).  External collaborators (the OpenAI chat endpoint, the Python `exec`
primitive, the artifact file writes and the pandas statistics) are modelled as
oracle parameters; everything else is translated directly from the source.
-/

namespace DashboardBackend

/-- Characters of a string literal. -/
def chars (s : String) : List Char := s.data

/-- Program text: Python code fragments, prompts and error messages. -/
abbrev Text := List Char

/-- Boolean prefix test on text (Python `str.startswith`). -/
def isPrefixText : Text → Text → Bool
  | [], _ => true
  | _ :: _, [] => false
  | a :: as, b :: bs => a == b && isPrefixText as bs

/-- Boolean substring test on text (Python `in` on strings). -/
def containsText (pat : Text) : Text → Bool
  | [] => pat.isEmpty
  | c :: rest => isPrefixText pat (c :: rest) || containsText pat rest

/-- Boolean suffix test on text (Python `str.endswith`). -/
def endsWithText (suffix s : Text) : Bool :=
  isPrefixText suffix.reverse s.reverse

/-- Python `str.strip`: drop leading and trailing whitespace. -/
def strip (s : Text) : Text :=
  ((s.dropWhile Char.isWhitespace).reverse.dropWhile Char.isWhitespace).reverse

/-- Split a text around the first occurrence of `pat`, returning the part
before and the part after that occurrence (used to model both
`re.search` with a non-greedy group and Python `str.split`). -/
def splitFirst (pat : Text) : Text → Option (Text × Text)
  | [] => if pat.isEmpty then some ([], []) else none
  | c :: rest =>
    if isPrefixText pat (c :: rest) then some ([], (c :: rest).drop pat.length)
    else
      match splitFirst pat rest with
      | some (pre, post) => some (c :: pre, post)
      | none => none

/-- Fuelled worker for `pySplit`; the fuel is an upper bound on the number of
separator occurrences plus one. -/
def pySplitAux (sep : Text) : Nat → Text → List Text
  | 0, s => [s]
  | fuel + 1, s =>
    match splitFirst sep s with
    | none => [s]
    | some (pre, post) => pre :: pySplitAux sep fuel post

/-- Python `str.split(sep)` for a non-empty separator. -/
def pySplit (sep s : Text) : List Text :=
  pySplitAux sep (s.length + 1) s

/-- Python `str.replace(pat, repl)`: replace every occurrence, left to right. -/
def replaceAll (pat repl : Text) : Text → Text
  | [] => []
  | c :: rest =>
    if h : pat ≠ [] ∧ isPrefixText pat (c :: rest) = true then
      repl ++ replaceAll pat repl ((c :: rest).drop pat.length)
    else
      c :: replaceAll pat repl rest
termination_by s => s.length
decreasing_by
  · have hp : 0 < pat.length := List.length_pos.mpr h.1
    simp [List.length_drop]
    omega
  · simp

lemma containsText_nil_pat (s : Text) : containsText [] s = true := by
  cases s <;> simp [containsText, isPrefixText, List.isEmpty]

lemma isPrefixText_refl (p : Text) : isPrefixText p p = true := by
  induction p with
  | nil => rfl
  | cons a as ih => simp [isPrefixText, ih]

lemma isPrefixText_extend {p l : Text} (s : Text) (h : isPrefixText p l = true) :
    isPrefixText p (l ++ s) = true := by
  induction p generalizing l with
  | nil => simp [isPrefixText]
  | cons a as ih =>
    cases l with
    | nil => simp [isPrefixText] at h
    | cons b bs =>
      simp [isPrefixText] at h ⊢
      exact ⟨h.1, ih h.2⟩

lemma containsText_of_isPrefixText {p s : Text} (h : isPrefixText p s = true) :
    containsText p s = true := by
  cases s with
  | nil =>
    cases p with
    | nil => exact containsText_nil_pat []
    | cons a as => simp [isPrefixText] at h
  | cons c rest => simp [containsText, h]

lemma containsText_self (p : Text) : containsText p p = true :=
  containsText_of_isPrefixText (isPrefixText_refl p)

lemma containsText_cons {p s : Text} (c : Char) (h : containsText p s = true) :
    containsText p (c :: s) = true := by
  simp [containsText, h]

lemma containsText_prepend {p s : Text} (l : Text) (h : containsText p s = true) :
    containsText p (l ++ s) = true := by
  induction l with
  | nil => simpa using h
  | cons c cs ih => simpa using containsText_cons c ih

lemma containsText_extend {p l : Text} (s : Text) (h : containsText p l = true) :
    containsText p (l ++ s) = true := by
  induction l with
  | nil =>
    have : p = [] := by
      cases p with
      | nil => rfl
      | cons a as => simp [containsText, List.isEmpty] at h
    subst this
    exact containsText_nil_pat s
  | cons c cs ih =>
    simp only [containsText, Bool.or_eq_true] at h
    rcases h with h | h
    · exact containsText_of_isPrefixText (isPrefixText_extend s h)
    · simpa using containsText_cons c (ih h)

/-- `MAX_RETRIES = 4` (module-level constant of app.py). -/
def MAX_RETRIES : Nat := 4

/-- The module-level `retries = 0` of app.py.  It is never reassigned at
module level; `get_plotly_code_from_gpt` reads it in its re-raise condition
(`attempt == retries - 1`), so the comparison is against `0 - 1 = -1`. -/
def retries : Int := 0

/-- The process-wide dataset: column names and a row count.  Cell values are
irrelevant to every claim, so they are not carried. -/
structure DataFrame where
  cols : List Text
  nrows : Nat
deriving DecidableEq

/-- The process-wide mutable state of app.py (`df = None` at module level). -/
structure AppState where
  df : Option DataFrame
deriving DecidableEq

/-- Models `dataframe.describe(include='all').to_string()`: pandas raises a
`ValueError` when the frame has no columns and otherwise produces the
statistics text, abstracted as `descFn` (a frame with columns but zero rows
is described normally, with zero counts). -/
def describeAll (descFn : DataFrame → Text) (df : DataFrame) : Except Text Text :=
  if df.cols.isEmpty then
    .error (chars "ValueError: Cannot describe a DataFrame without columns")
  else
    .ok (descFn df)

/-- The prompt body of `get_plotly_code_from_gpt` (lines 106-118), as a
function of the description text and the printed dataframe. -/
def basePlotPrompt (desc dfRepr : Text) : Text :=
  chars "\n    Given the following data description:\n    " ++ desc ++
  chars "\n   \n    Generate Python code using Plotly to create an enhanced interactive graph.\n    The graph should be colorful, attractive, and appealing.\n    It should include dynamic range colors, annotations for key points, and interactivity.\n    The data contains columns representing different metrics. Use appropriate graph types based on data characteristics.\n    Make sure that the generated code is not an example but actual code and also re-verify your code before generation.\n   \n    **Instructions**\n    - Use this Dataframe in your generated code instead of giving any sample value: " ++
  dfRepr ++ chars "\n    "

/-- Lines 120-121: the prior error is appended to the prompt when present. -/
def buildPrompt (desc dfRepr : Text) (error_message : Option Text) : Text :=
  basePlotPrompt desc dfRepr ++
    match error_message with
    | none => []
    | some m => chars "\nPrevious attempt resulted in the following error: " ++ m

/-- Line 138: `re.search(r"```python(.*?)```", code_block, re.DOTALL)` and
line 140 `code_match.group(1).strip()` — the first fenced fragment, with the
non-greedy group ending at the first closing fence. -/
def extractFenced (content : Text) : Option Text :=
  match splitFirst (chars "```python") content with
  | none => none
  | some (_, rest) =>
    match splitFirst (chars "```") rest with
    | none => none
    | some (code, _) => some (strip code)

def msPat : Text := chars "make_subplots"
def npPat : Text := chars "numpy"
def goPat : Text := chars "plotly.graph_objects as go"
def msImport : Text := chars "from plotly.subplots import make_subplots\n"
def npImport : Text := chars "import numpy as np\n"
def goImport : Text := chars "import plotly.graph_objects as go\n"

/-- One normalization line: `if pat not in code: code = imp + code`. -/
def ensureStep (pat imp : Text) (code : Text) : Text :=
  if containsText pat code then code else imp ++ code

/-- Lines 142-148: prepend each import whose reference substring is missing
from the (partially normalized) code, checking `make_subplots`, then `numpy`,
then `plotly.graph_objects as go`. -/
def ensureImports (code : Text) : Text :=
  ensureStep goPat goImport (ensureStep npPat npImport (ensureStep msPat msImport code))

/-- The `for attempt in range(3)` loop of `get_plotly_code_from_gpt`
(lines 123-156).  `modelO prompt attempt` is the chat endpoint: `.ok` is the
stripped response content, `.error` an exception raised by the API call.
The pair counts the endpoint calls made.  A fenced fragment returns the
normalized code; otherwise the raised exception is swallowed unless
`attempt == retries - 1`, where `retries` is the module-level `0` — so the
loop can fall through, returning Python `None` (`Except.ok none`). -/
def synthAttempts (modelO : Text → Nat → Except Text Text) (prompt : Text) :
    List Nat → Except Text (Option Text) × Nat
  | [] => (.ok none, 0)
  | a :: rest =>
    match modelO prompt a with
    | .error e =>
      if (a : Int) = retries - 1 then (.error e, 1)
      else
        match synthAttempts modelO prompt rest with
        | (r, n) => (r, n + 1)
    | .ok content =>
      match extractFenced (strip content) with
      | some code => (.ok (some (ensureImports code)), 1)
      | none =>
        if (a : Int) = retries - 1 then
          (.error (chars "Code block not found in the response."), 1)
        else
          match synthAttempts modelO prompt rest with
          | (r, n) => (r, n + 1)

/-- `get_plotly_code_from_gpt(dataframe, error_message=None)` (lines 104-156).
The describe call sits before the loop, so its exception propagates raw. -/
def get_plotly_code_from_gpt (modelO : Text → Nat → Except Text Text)
    (descFn reprFn : DataFrame → Text) (df : DataFrame)
    (error_message : Option Text) : Except Text (Option Text) × Nat :=
  match describeAll descFn df with
  | .error e => (.error e, 0)
  | .ok desc => synthAttempts modelO (buildPrompt desc (reprFn df) error_message) [0, 1, 2]

/-- Errors surfacing out of the retry pipeline: an ordinary exception value,
or Python's UnboundLocalError for reading a local variable that was never
assigned in the current frame. -/
inductive Err where
  | exc (msg : Text)
  | unboundLocal (nm : Text)
deriving DecidableEq

/-- Outcome of `exec(code, {}, local_vars)` on a code text: the evaluation
raises, or it completes with or without binding `fig` in the scope. -/
inductive ExecResult where
  | raised (msg : Text)
  | done (figBound : Bool)

/-- The body of the `try` block of `execute_plotly_code` (lines 160-174):
strip `fig.show()`, evaluate via the exec oracle, look up `fig` (a missing
binding raises KeyError), then serialize via the write oracle.  Every
exception raised inside is caught by the `except` clause, so the block is a
total function into a converted `Failure` message or the artifact path.
A `None` coder (the fall-through of `get_plotly_code_from_gpt`) raises
AttributeError at `coder.replace` and is likewise converted. -/
def tryExecuteOnce (execO : Nat → Text → ExecResult) (writeO : Nat → Option Text)
    (round : Nat) (coder : Option Text) : Except Text Text :=
  match coder with
  | none => .error (chars "AttributeError: NoneType object has no attribute replace")
  | some coderText =>
    let code := replaceAll (chars "fig.show()") [] coderText
    match execO round code with
    | .raised m => .error m
    | .done false => .error (chars "KeyError: fig")
    | .done true =>
      match writeO round with
      | some m => .error m
      | none => .ok (chars "static/enhanced_interactive_graph.html")

/-- Recursion worker for `execute_plotly_code`, structural on the remaining
budget `MAX_RETRIES - retries`.  A positive budget is the `retries <
MAX_RETRIES` branch; budget zero is the `else` branch of line 181, whose
f-string reads the local `error_message` that is only ever assigned inside
the `except` clause of the same frame — hence an UnboundLocalError.
Returns (result, number of executed attempts, recursion depth). -/
def executePlotlyAux (execO : Nat → Text → ExecResult) (writeO : Nat → Option Text)
    (modelO : Nat → Text → Nat → Except Text Text)
    (descFn reprFn : DataFrame → Text) (df : DataFrame) :
    Nat → Option Text → Nat → Nat → Except Err Text × Nat × Nat
  | 0, _, _, _ => (.error (.unboundLocal (chars "error_message")), 0, 1)
  | budget + 1, coder, retriesArg, round =>
    match tryExecuteOnce execO writeO round coder with
    | .ok path => (.ok path, 1, 1)
    | .error error_message =>
      match get_plotly_code_from_gpt (modelO round) descFn reprFn df (some error_message) with
      | (.error e, _) => (.error (.exc e), 1, 1)
      | (.ok coder2, _) =>
        match executePlotlyAux execO writeO modelO descFn reprFn df budget coder2
            (retriesArg + 1) (round + 1) with
        | (r, n, d) => (r, n + 1, d + 1)

/-- `execute_plotly_code(coder, dataframe, retries=0)` (lines 158-182).  On a
converted failure it regenerates code from the error message and recurses
with `retries + 1`; at `retries >= MAX_RETRIES` it attempts to raise the
exhaustion message and instead raises UnboundLocalError. -/
def execute_plotly_code (execO : Nat → Text → ExecResult) (writeO : Nat → Option Text)
    (modelO : Nat → Text → Nat → Except Text Text)
    (descFn reprFn : DataFrame → Text)
    (coder : Option Text) (df : DataFrame) (retriesArg : Nat) :
    Except Err Text × Nat × Nat :=
  executePlotlyAux execO writeO modelO descFn reprFn df
    (MAX_RETRIES - retriesArg) coder retriesArg 0

/-- The prompt of `get_summary_from_gpt` (lines 186-196). -/
def summaryPrompt (desc : Text) : Text :=
  chars "\n    Given the following data description:\n    " ++ desc ++
  chars "\n    Analyze the data and provide the top 4 key summary points with actual data only. Each summary point should be presented in the following format:\n\n    [Key Metric] - [Value]\n    Ensure the response is concise and adheres strictly to the above specified format.\n\n    **Instructions**\n    - Do not give any extra text except the above specified format.\n    "

/-- One entry of the dict comprehension of line 214:
`line.split(' - ')[0].strip(): line.split(' - ')[1].strip()`.
A line without `' - '` has a single-element split, so indexing `[1]` raises
IndexError. -/
def parseSummaryLine (l : Text) : Except Text (Text × Text) :=
  match pySplit (chars " - ") l with
  | p0 :: p1 :: _ => .ok (strip p0, strip p1)
  | _ => .error (chars "IndexError: list index out of range")

/-- The dict comprehension of line 214 over `summary.split('\n')`: pairs are
produced in line order, and the first malformed line aborts the whole
comprehension with its IndexError.  The Python dict is modelled as the
association list in insertion order. -/
def parseSummaryLines : List Text → Except Text (List (Text × Text))
  | [] => .ok []
  | l :: ls =>
    match parseSummaryLine l with
    | .error e => .error e
    | .ok p =>
      match parseSummaryLines ls with
      | .error e => .error e
      | .ok ps => .ok (p :: ps)

/-- The `for attempt in range(retries)` loop of `get_summary_from_gpt`
(lines 198-220); here the re-raise condition compares against the `retries`
parameter (default 3), so the last attempt does re-raise. -/
def summaryAttempts (modelO : Text → Nat → Except Text Text) (prompt : Text)
    (retriesArg : Nat) : List Nat → Except Text (Option (List (Text × Text))) × Nat
  | [] => (.ok none, 0)
  | a :: rest =>
    match modelO prompt a with
    | .error e =>
      if (a : Int) = (retriesArg : Int) - 1 then (.error e, 1)
      else
        match summaryAttempts modelO prompt retriesArg rest with
        | (r, n) => (r, n + 1)
    | .ok content =>
      match parseSummaryLines (pySplit (chars "\n") (strip content)) with
      | .ok pairs => (.ok (some pairs), 1)
      | .error e =>
        if (a : Int) = (retriesArg : Int) - 1 then (.error e, 1)
        else
          match summaryAttempts modelO prompt retriesArg rest with
          | (r, n) => (r, n + 1)

/-- `get_summary_from_gpt(dataframe, retries=3)` (lines 184-220). -/
def get_summary_from_gpt (modelO : Text → Nat → Except Text Text)
    (descFn : DataFrame → Text) (df : DataFrame) (retriesArg : Nat) :
    Except Text (Option (List (Text × Text))) × Nat :=
  match describeAll descFn df with
  | .error e => (.error e, 0)
  | .ok desc => summaryAttempts modelO (summaryPrompt desc) retriesArg (List.range retriesArg)

/-- A canonical chart built by `create_dashboard`: its kind, the column used
for x (or pie names), the column used for y (or pie values), and its title. -/
structure ChartSpec where
  kind : Text
  x : Text
  y : Text
  title : Text
deriving DecidableEq

/-- The value assembled by `create_dashboard` (lines 223-253): the three
figures, the returned graph-path dict, the summary artifact path, and the
summary content dumped to it. -/
structure DashboardData where
  lineG : ChartSpec
  barG : ChartSpec
  pieG : ChartSpec
  graphs : List (Text × Text)
  summaryPath : Text
  summaryContent : Option (List (Text × Text))
deriving DecidableEq

/-- `create_dashboard(summary, dataframe)` (lines 223-253): the three charts
are built from `dataframe.columns[0]` and `dataframe.columns[1]`; with fewer
than two columns the indexing raises.  No model endpoint is consulted. -/
def create_dashboard (summary : Option (List (Text × Text))) (df : DataFrame) :
    Except Text DashboardData :=
  match df.cols with
  | c0 :: c1 :: _ =>
    .ok { lineG := ⟨chars "line", c0, c1, chars "Line Graph"⟩
        , barG := ⟨chars "bar", c0, c1, chars "Bar Graph"⟩
        , pieG := ⟨chars "pie", c0, c1, chars "Pie Chart"⟩
        , graphs := [(chars "bargraph", chars "bargraph.html"),
                     (chars "linegraph", chars "linegraph.html"),
                     (chars "piechart", chars "piechart.html")]
        , summaryPath := chars "static/summary.json"
        , summaryContent := summary }
  | _ => .error (chars "IndexError: index 1 is out of bounds")

/-- The `/dashboard` route `generate_dashboard` (lines 72-90): summary via
the model, then the deterministic charts.  The pair counts model calls. -/
def generate_dashboard (modelO : Text → Nat → Except Text Text)
    (descFn : DataFrame → Text) (st : AppState) :
    Except Text DashboardData × Nat :=
  match st.df with
  | none => (.error (chars "No data uploaded. Please upload a CSV file first."), 0)
  | some df =>
    match get_summary_from_gpt modelO descFn df 3 with
    | (.error e, n) => (.error e, n)
    | (.ok s, n) =>
      match create_dashboard s df with
      | .error e => (.error e, n)
      | .ok d => (.ok d, n)

/-- The `/analyze` route `analyze_data` (lines 57-69): initial synthesis,
then the execution retry loop from `retries = 0`.  Returns the final result,
the model calls made by the initial synthesis, and the execution attempts. -/
def analyze_data (execO : Nat → Text → ExecResult) (writeO : Nat → Option Text)
    (modelO : Nat → Text → Nat → Except Text Text)
    (descFn reprFn : DataFrame → Text) (st : AppState) :
    Except Err Text × Nat × Nat :=
  match st.df with
  | none => (.error (.exc (chars "No data uploaded. Please upload a CSV file first.")), 0, 0)
  | some df =>
    match get_plotly_code_from_gpt (modelO 0) descFn reprFn df none with
    | (.error e, n) => (.error (.exc e), n, 0)
    | (.ok coder, n) =>
      match execute_plotly_code execO writeO (fun k => modelO (k + 1)) descFn reprFn coder df 0 with
      | (r, ne, _) => (r, n, ne)

/-- An incoming multipart upload: whether a `file` part exists, and its
filename. -/
structure UploadRequest where
  hasFilePart : Bool
  filename : Text
deriving DecidableEq

/-- A Flask response, reduced to status code and message body. -/
structure HttpResponse where
  status : Nat
  body : Text
deriving DecidableEq

/-- `upload_file` (lines 34-55).  `parseCsv`/`parseExcel` stand for
`pd.read_csv`/`pd.read_excel`.  A `FileStorage` is truthy exactly when its
filename is non-empty, which the preceding check ensures, so the final
`else` of line 54 is unreachable. -/
def upload_file (parseCsv parseExcel : Text → DataFrame)
    (req : UploadRequest) (st : AppState) : AppState × HttpResponse :=
  if !req.hasFilePart then
    (st, ⟨400, chars "No file part"⟩)
  else if req.filename = [] then
    (st, ⟨400, chars "No selected file"⟩)
  else if endsWithText (chars ".csv") req.filename then
    (⟨some (parseCsv req.filename)⟩, ⟨200, chars "File uploaded successfully"⟩)
  else if endsWithText (chars ".xlsx") req.filename || endsWithText (chars ".xls") req.filename then
    (⟨some (parseExcel req.filename)⟩, ⟨200, chars "File uploaded successfully"⟩)
  else
    (st, ⟨400, chars "Invalid file type, please upload a CSV, XLSX, or XLS file"⟩)

lemma ms_in_msImport : containsText msPat msImport = true := by decide

lemma np_in_npImport : containsText npPat npImport = true := by decide

lemma go_in_goImport : containsText goPat goImport = true := by decide

lemma ensureStep_contains_self {pat imp : Text} (h : containsText pat imp = true)
    (x : Text) : containsText pat (ensureStep pat imp x) = true := by
  unfold ensureStep
  by_cases hx : containsText pat x = true
  · simp [hx]
  · simp only [Bool.not_eq_true] at hx
    simp only [hx, if_false]
    exact containsText_extend x h

lemma ensureStep_preserves {q : Text} (pat imp x : Text)
    (h : containsText q x = true) : containsText q (ensureStep pat imp x) = true := by
  unfold ensureStep
  by_cases hx : containsText pat x = true
  · simp [hx, h]
  · simp only [Bool.not_eq_true] at hx
    simp only [hx, if_false]
    exact containsText_prepend imp h

lemma ensureStep_id {pat imp x : Text} (h : containsText pat x = true) :
    ensureStep pat imp x = x := by
  simp [ensureStep, h]

lemma ensureImports_contains (x : Text) :
    containsText msPat (ensureImports x) = true ∧
    containsText npPat (ensureImports x) = true ∧
    containsText goPat (ensureImports x) = true := by
  unfold ensureImports
  refine ⟨?_, ?_, ?_⟩
  · exact ensureStep_preserves _ _ _
      (ensureStep_preserves _ _ _ (ensureStep_contains_self ms_in_msImport x))
  · exact ensureStep_preserves _ _ _ (ensureStep_contains_self np_in_npImport _)
  · exact ensureStep_contains_self go_in_goImport _

lemma ensureImports_of_contains {x : Text}
    (h1 : containsText msPat x = true) (h2 : containsText npPat x = true)
    (h3 : containsText goPat x = true) : ensureImports x = x := by
  unfold ensureImports
  rw [ensureStep_id h1, ensureStep_id h2, ensureStep_id h3]

/-- C4.  Import normalization: a fragment already referencing the subplot
helper, the numeric namespace and the graph-objects namespace is returned
byte-identical; the normalized result always references all three, so
normalization is idempotent; and when the subplot-helper reference is
missing, its import statement is prepended (below any further prepends). -/
theorem ensureImportsIdempotent (c : Text) :
    (containsText msPat c = true → containsText npPat c = true →
       containsText goPat c = true → ensureImports c = c)
    ∧ containsText msPat (ensureImports c) = true
    ∧ containsText npPat (ensureImports c) = true
    ∧ containsText goPat (ensureImports c) = true
    ∧ ensureImports (ensureImports c) = ensureImports c
    ∧ (containsText msPat c = false → ∃ pre, ensureImports c = pre ++ (msImport ++ c)) := by
  obtain ⟨hm, hn, hg⟩ := ensureImports_contains c
  refine ⟨fun h1 h2 h3 => ensureImports_of_contains h1 h2 h3, hm, hn, hg,
    ?_, ?_⟩
  · obtain ⟨hm2, hn2, hg2⟩ := ensureImports_contains c
    exact ensureImports_of_contains hm2 hn2 hg2
  · intro hms
    have hc1 : ensureStep msPat msImport c = msImport ++ c := by
      simp [ensureStep, hms]
    unfold ensureImports
    rw [hc1]
    by_cases h2 : containsText npPat (msImport ++ c) = true
    · rw [ensureStep_id h2]
      by_cases h3 : containsText goPat (msImport ++ c) = true
      · rw [ensureStep_id h3]
        exact ⟨[], by simp⟩
      · simp only [Bool.not_eq_true] at h3
        refine ⟨goImport, ?_⟩
        simp [ensureStep, h3]
    · simp only [Bool.not_eq_true] at h2
      have hc2 : ensureStep npPat npImport (msImport ++ c) = npImport ++ (msImport ++ c) := by
        simp [ensureStep, h2]
      rw [hc2]
      by_cases h3 : containsText goPat (npImport ++ (msImport ++ c)) = true
      · rw [ensureStep_id h3]
        exact ⟨npImport, rfl⟩
      · simp only [Bool.not_eq_true] at h3
        refine ⟨goImport ++ npImport, ?_⟩
        simp [ensureStep, h3]

/-- Witness for C4: a fragment with all three references is left unchanged,
and for one with no `make_subplots` reference the import is prepended. -/
theorem ensureImportsIdempotent_witness :
    ensureImports (chars "from plotly.subplots import make_subplots\nimport numpy as np\nimport plotly.graph_objects as go\nfig = px.line(df)")
      = chars "from plotly.subplots import make_subplots\nimport numpy as np\nimport plotly.graph_objects as go\nfig = px.line(df)"
    ∧ ∃ pre, ensureImports (chars "fig = px.line(df)") = pre ++ (msImport ++ chars "fig = px.line(df)") :=
  ⟨(ensureImportsIdempotent _).1 (by decide) (by decide) (by decide),
   (ensureImportsIdempotent _).2.2.2.2.2 (by decide)⟩

lemma executeAux_depth_le (execO : Nat → Text → ExecResult) (writeO : Nat → Option Text)
    (modelO : Nat → Text → Nat → Except Text Text)
    (descFn reprFn : DataFrame → Text) (df : DataFrame) :
    ∀ (b : Nat) (coder : Option Text) (retriesArg round : Nat),
      (executePlotlyAux execO writeO modelO descFn reprFn df b coder retriesArg round).2.2
        ≤ b + 1 := by
  intro b
  induction b with
  | zero =>
    intro coder retriesArg round
    simp [executePlotlyAux]
  | succ n ih =>
    intro coder retriesArg round
    simp only [executePlotlyAux]
    split
    · simp
    · split
      · simp
      · next coder2 k heq =>
        have hd := ih coder2 (retriesArg + 1) (round + 1)
        simp
        exact hd

/-- C9.  The execution retry recursion always terminates: the retries counter
rises by one on each self-invocation, so from any start the recursion depth
never exceeds `MAX_RETRIES + 1`. -/
theorem executeRecursionDepthBounded (execO : Nat → Text → ExecResult)
    (writeO : Nat → Option Text) (modelO : Nat → Text → Nat → Except Text Text)
    (descFn reprFn : DataFrame → Text) (coder : Option Text) (df : DataFrame)
    (retriesArg : Nat) :
    (execute_plotly_code execO writeO modelO descFn reprFn coder df retriesArg).2.2
      ≤ MAX_RETRIES + 1 := by
  have h := executeAux_depth_le execO writeO modelO descFn reprFn df
    (MAX_RETRIES - retriesArg) coder retriesArg 0
  unfold execute_plotly_code
  refine le_trans h ?_
  unfold MAX_RETRIES
  omega

/-- C10.  An upload whose filename ends in none of `.csv`, `.xlsx`, `.xls`
is answered with a 400 error and leaves the process-wide dataset state
exactly as it was, so a previously uploaded dataset stays available. -/
theorem rejectedUploadLeavesStateUnchanged (parseCsv parseExcel : Text → DataFrame)
    (req : UploadRequest) (st : AppState)
    (h1 : endsWithText (chars ".csv") req.filename = false)
    (h2 : endsWithText (chars ".xlsx") req.filename = false)
    (h3 : endsWithText (chars ".xls") req.filename = false) :
    (upload_file parseCsv parseExcel req st).1 = st ∧
    (upload_file parseCsv parseExcel req st).2.status = 400 := by
  unfold upload_file
  cases hf : req.hasFilePart with
  | false => simp
  | true =>
    by_cases hn : req.filename = []
    · simp [hn]
    · simp [hn, h1, h2, h3]

/-- Witness for C10: a `.txt` upload is rejected and keeps the prior frame. -/
theorem rejectedUploadLeavesStateUnchanged_witness :
    (upload_file (fun _ => ⟨[], 0⟩) (fun _ => ⟨[], 0⟩) ⟨true, chars "data.txt"⟩
        ⟨some ⟨[chars "A"], 2⟩⟩).1 = ⟨some ⟨[chars "A"], 2⟩⟩ ∧
    (upload_file (fun _ => ⟨[], 0⟩) (fun _ => ⟨[], 0⟩) ⟨true, chars "data.txt"⟩
        ⟨some ⟨[chars "A"], 2⟩⟩).2.status = 400 :=
  rejectedUploadLeavesStateUnchanged _ _ _ _ (by rfl) (by rfl) (by rfl)

lemma executeAux_allFail (execO : Nat → Text → ExecResult) (writeO : Nat → Option Text)
    (modelO : Nat → Text → Nat → Except Text Text)
    (descFn reprFn : DataFrame → Text) (df : DataFrame)
    (hfail : ∀ round coder, ∃ m, tryExecuteOnce execO writeO round coder = .error m)
    (hsynth : ∀ round m, ∃ c k,
      get_plotly_code_from_gpt (modelO round) descFn reprFn df (some m) = (.ok (some c), k)) :
    ∀ (b : Nat) (coder : Option Text) (retriesArg round : Nat),
      executePlotlyAux execO writeO modelO descFn reprFn df b coder retriesArg round
        = (.error (.unboundLocal (chars "error_message")), b, b + 1) := by
  intro b
  induction b with
  | zero => intro coder retriesArg round; rfl
  | succ n ih =>
    intro coder retriesArg round
    obtain ⟨m, hm⟩ := hfail round coder
    obtain ⟨c, k, hc⟩ := hsynth round m
    simp only [executePlotlyAux, hm, hc]
    rw [ih (some c) (retriesArg + 1) (round + 1)]

/-- C1.  When every execution attempt fails and synthesis always returns
code, the orchestrator started at `retries = 0` performs exactly
`MAX_RETRIES` execution attempts — but the terminal error is Python's
UnboundLocalError for `error_message` (line 182 reads a local that is never
assigned in the exhausted frame), not a message naming the last error. -/
theorem retryExhaustionRaisesUnboundLocal (execO : Nat → Text → ExecResult)
    (writeO : Nat → Option Text) (modelO : Nat → Text → Nat → Except Text Text)
    (descFn reprFn : DataFrame → Text) (df : DataFrame) (coder : Option Text)
    (hfail : ∀ round coder, ∃ m, tryExecuteOnce execO writeO round coder = .error m)
    (hsynth : ∀ round m, ∃ c k,
      get_plotly_code_from_gpt (modelO round) descFn reprFn df (some m) = (.ok (some c), k)) :
    execute_plotly_code execO writeO modelO descFn reprFn coder df 0
      = (.error (.unboundLocal (chars "error_message")), MAX_RETRIES, MAX_RETRIES + 1) := by
  unfold execute_plotly_code
  simpa using executeAux_allFail execO writeO modelO descFn reprFn df hfail hsynth
    (MAX_RETRIES - 0) coder 0 0

/-- Witness for C1: a concrete engine that always raises and a model that
always answers with a fenced fragment. -/
theorem retryExhaustionRaisesUnboundLocal_witness :
    execute_plotly_code (fun _ _ => .raised (chars "boom")) (fun _ => none)
      (fun _ _ _ => .ok (chars "```python\nfig = px.line(df)\n```"))
      (fun _ => chars "stats") (fun _ => chars "frame")
      (some (chars "fig = 1")) ⟨[chars "A"], 3⟩ 0
      = (.error (.unboundLocal (chars "error_message")), MAX_RETRIES, MAX_RETRIES + 1) := by
  refine retryExhaustionRaisesUnboundLocal _ _ _ _ _ _ _ ?_ ?_
  · intro round coder
    cases coder with
    | none => exact ⟨_, rfl⟩
    | some t => exact ⟨chars "boom", rfl⟩
  · intro round m
    exact ⟨_, 1, rfl⟩

/-- C2.  When no model response ever contains a fenced fragment, the
synthesis loop makes exactly 3 endpoint calls and then falls through,
returning Python `None` — the re-raise of line 155 compares `attempt`
against the module-level `retries - 1 = -1` and never fires, so no
exception reaches the caller. -/
theorem synthesisFallsThroughToNone (modelO : Text → Nat → Except Text Text)
    (descFn reprFn : DataFrame → Text) (df : DataFrame) (errOpt : Option Text)
    (hcols : df.cols ≠ [])
    (hresp : ∀ prompt a, ∃ s, modelO prompt a = .ok s ∧ extractFenced (strip s) = none) :
    get_plotly_code_from_gpt modelO descFn reprFn df errOpt = (.ok none, 3) := by
  obtain ⟨cols, nr⟩ := df
  cases cols with
  | nil => exact absurd rfl hcols
  | cons c cs =>
    simp only [get_plotly_code_from_gpt, describeAll, List.isEmpty_cons, if_false,
      Bool.false_eq_true]
    obtain ⟨s0, h0, x0⟩ := hresp (buildPrompt (descFn ⟨c :: cs, nr⟩)
      (reprFn ⟨c :: cs, nr⟩) errOpt) 0
    obtain ⟨s1, h1, x1⟩ := hresp (buildPrompt (descFn ⟨c :: cs, nr⟩)
      (reprFn ⟨c :: cs, nr⟩) errOpt) 1
    obtain ⟨s2, h2, x2⟩ := hresp (buildPrompt (descFn ⟨c :: cs, nr⟩)
      (reprFn ⟨c :: cs, nr⟩) errOpt) 2
    simp [synthAttempts, h0, h1, h2, x0, x1, x2, retries]

/-- Witness for C2: a concrete model that never fences code. -/
theorem synthesisFallsThroughToNone_witness :
    get_plotly_code_from_gpt (fun _ _ => .ok (chars "no fenced block"))
      (fun _ => chars "stats") (fun _ => chars "frame") ⟨[chars "A"], 3⟩ none
      = (.ok none, 3) := by
  refine synthesisFallsThroughToNone _ _ _ _ _ (by simp) ?_
  intro prompt a
  exact ⟨chars "no fenced block", rfl, rfl⟩

lemma synthAttempts_ne_error (modelO : Text → Nat → Except Text Text) (prompt : Text) :
    ∀ (as : List Nat) (e : Text), (synthAttempts modelO prompt as).1 ≠ .error e := by
  intro as
  induction as with
  | nil => intro e h; simp [synthAttempts] at h
  | cons a rest ih =>
    intro e
    have hne : ¬((a : Int) = retries - 1) := by
      simp only [retries]
      omega
    simp only [synthAttempts]
    split
    · rw [if_neg hne]
      exact ih e
    · split
      · intro h; simp at h
      · rw [if_neg hne]
        exact ih e

lemma getPlotly_ne_error (modelO : Text → Nat → Except Text Text)
    (descFn reprFn : DataFrame → Text) (df : DataFrame) (errOpt : Option Text)
    (hcols : df.cols ≠ []) (e : Text) :
    (get_plotly_code_from_gpt modelO descFn reprFn df errOpt).1 ≠ .error e := by
  obtain ⟨cols, nr⟩ := df
  cases cols with
  | nil => exact absurd rfl hcols
  | cons c cs =>
    simp only [get_plotly_code_from_gpt, describeAll, List.isEmpty_cons, if_false,
      Bool.false_eq_true]
    exact synthAttempts_ne_error modelO _ [0, 1, 2] e

lemma executeAux_error_unbound (execO : Nat → Text → ExecResult) (writeO : Nat → Option Text)
    (modelO : Nat → Text → Nat → Except Text Text)
    (descFn reprFn : DataFrame → Text) (df : DataFrame) (hcols : df.cols ≠ []) :
    ∀ (b : Nat) (coder : Option Text) (retriesArg round : Nat) (e : Err),
      (executePlotlyAux execO writeO modelO descFn reprFn df b coder retriesArg round).1
          = .error e →
        e = .unboundLocal (chars "error_message") := by
  intro b
  induction b with
  | zero =>
    intro coder retriesArg round e h
    simp only [executePlotlyAux] at h
    exact (Except.error.inj h).symm
  | succ n ih =>
    intro coder retriesArg round e
    simp only [executePlotlyAux]
    split
    · intro h; simp at h
    · split
      · next e2 k heq =>
        exact absurd (by rw [heq])
          (getPlotly_ne_error (modelO round) descFn reprFn df _ hcols e2)
      · next coder2 k heq =>
        intro h
        exact ih coder2 (retriesArg + 1) (round + 1) e h

/-- C3.  While the budget is open, every exception raised inside the try
block of the execution engine (a raised evaluation error, a missing `fig`
binding, a failed write, or even a `None` coder) is converted to an error
message rather than propagated: the only error the orchestrator can ever
surface is the exhaustion-time UnboundLocalError.  Moreover the converted
message is embedded verbatim in the prompt of the next synthesis round. -/
theorem executionFailuresContained (execO : Nat → Text → ExecResult)
    (writeO : Nat → Option Text) (modelO : Nat → Text → Nat → Except Text Text)
    (descFn reprFn : DataFrame → Text) (df : DataFrame) (coder : Option Text)
    (retriesArg : Nat) (e : Err) (hcols : df.cols ≠ [])
    (herr : (execute_plotly_code execO writeO modelO descFn reprFn coder df retriesArg).1
      = .error e) :
    e = .unboundLocal (chars "error_message") ∧
    ∀ desc dfRepr m, containsText m (buildPrompt desc dfRepr (some m)) = true := by
  constructor
  · exact executeAux_error_unbound execO writeO modelO descFn reprFn df hcols
      (MAX_RETRIES - retriesArg) coder retriesArg 0 e herr
  · intro desc dfRepr m
    simp only [buildPrompt]
    exact containsText_prepend _ (containsText_prepend _ (containsText_self m))

/-- Witness for C3, instantiated at an always-raising engine. -/
theorem executionFailuresContained_witness :
    containsText (chars "bad column") (buildPrompt (chars "stats") (chars "frame")
      (some (chars "bad column"))) = true :=
  (executionFailuresContained (fun _ _ => .raised (chars "boom")) (fun _ => none)
    (fun _ _ _ => .ok (chars "```python\nfig = px.line(df)\n```"))
    (fun _ => chars "stats") (fun _ => chars "frame") ⟨[chars "A"], 3⟩
    (some (chars "fig = 1")) 0 (.unboundLocal (chars "error_message"))
    (by simp) rfl).2 (chars "stats") (chars "frame") (chars "bad column")

/-- Counterexample for C6: on a dataset with zero rows (one column), the
pipeline makes 3 model calls during the initial synthesis and terminates in
the exhaustion UnboundLocalError — no `EmptyDatasetError` precedes (or ever
replaces) the model calls; no such check exists in the code. -/
theorem emptyDatasetStillReachesModel :
    (analyze_data (fun _ _ => .raised (chars "boom")) (fun _ => none)
      (fun _ _ _ => .ok (chars "no fenced block")) (fun _ => chars "stats")
      (fun _ => chars "frame") ⟨some ⟨[chars "A"], 0⟩⟩).2.1 = 3 ∧
    (analyze_data (fun _ _ => .raised (chars "boom")) (fun _ => none)
      (fun _ _ _ => .ok (chars "no fenced block")) (fun _ => chars "stats")
      (fun _ => chars "frame") ⟨some ⟨[chars "A"], 0⟩⟩).1
      = .error (.unboundLocal (chars "error_message")) :=
  ⟨rfl, rfl⟩

lemma synthAttempts_pos (modelO : Text → Nat → Except Text Text) (prompt : Text)
    (a : Nat) (rest : List Nat) : 1 ≤ (synthAttempts modelO prompt (a :: rest)).2 := by
  simp only [synthAttempts]
  split
  · split
    · simp
    · simp
  · split
    · simp
    · split
      · simp
      · simp

/-- C6 amended.  The code has no empty-dataset guard: with zero columns the
describe call itself raises a pandas ValueError before any model call (0
calls); with at least one column — in particular with zero rows — the model
endpoint is always consulted at least once. -/
theorem describeGuardBehavior (modelO : Text → Nat → Except Text Text)
    (descFn reprFn : DataFrame → Text) (df : DataFrame) (errOpt : Option Text) :
    (df.cols = [] → get_plotly_code_from_gpt modelO descFn reprFn df errOpt
      = (.error (chars "ValueError: Cannot describe a DataFrame without columns"), 0))
    ∧ (df.cols ≠ [] → 1 ≤ (get_plotly_code_from_gpt modelO descFn reprFn df errOpt).2) := by
  obtain ⟨cols, nr⟩ := df
  constructor
  · intro h
    simp only at h
    subst h
    simp [get_plotly_code_from_gpt, describeAll]
  · intro h
    cases cols with
    | nil => exact absurd rfl h
    | cons c cs =>
      simp only [get_plotly_code_from_gpt, describeAll, List.isEmpty_cons, if_false,
        Bool.false_eq_true]
      exact synthAttempts_pos modelO _ 0 [1, 2]

/-- Witness for the amended C6 at a zero-column and a one-column frame. -/
theorem describeGuardBehavior_witness :
    get_plotly_code_from_gpt (fun _ _ => .ok (chars "no fenced block"))
      (fun _ => chars "stats") (fun _ => chars "frame") ⟨[], 5⟩ none
      = (.error (chars "ValueError: Cannot describe a DataFrame without columns"), 0)
    ∧ 1 ≤ (get_plotly_code_from_gpt (fun _ _ => .ok (chars "no fenced block"))
      (fun _ => chars "stats") (fun _ => chars "frame") ⟨[chars "A"], 5⟩ none).2 :=
  ⟨(describeGuardBehavior _ _ _ _ _).1 rfl, (describeGuardBehavior _ _ _ _ _).2 (by simp)⟩

/-- Counterexample for C7: a malformed middle line makes the whole dict
comprehension raise IndexError instead of skipping it and returning the two
well-formed pairs. -/
theorem malformedLineAbortsParse :
    parseSummaryLines [chars "Total - 4", chars "malformed line", chars "Mean - 2"]
      = .error (chars "IndexError: list index out of range") := by
  rfl

lemma pySplitAux_cons (sep : Text) (f : Nat) (s : Text) :
    ∃ h t, pySplitAux sep f s = h :: t := by
  cases f with
  | zero => exact ⟨s, [], rfl⟩
  | succ n =>
    simp only [pySplitAux]
    rcases hs : splitFirst sep s with _ | ⟨pre, post⟩
    · exact ⟨s, [], rfl⟩
    · exact ⟨pre, pySplitAux sep n post, rfl⟩

lemma parseSummaryLine_malformed {l : Text} (h : splitFirst (chars " - ") l = none) :
    parseSummaryLine l = .error (chars "IndexError: list index out of range") := by
  simp [parseSummaryLine, pySplit, pySplitAux, h]

lemma parseSummaryLine_wellformed {l : Text} (h : splitFirst (chars " - ") l ≠ none) :
    ∃ p, parseSummaryLine l = .ok p := by
  rcases hs : splitFirst (chars " - ") l with _ | ⟨pre, post⟩
  · exact absurd hs h
  · obtain ⟨h1, t1, ht⟩ := pySplitAux_cons (chars " - ") l.length post
    exact ⟨(strip pre, strip h1), by simp [parseSummaryLine, pySplit, pySplitAux, hs, ht]⟩

/-- C7 amended.  A line without the `' - '` separator aborts the whole
summary parse of that attempt with an IndexError (no line is skipped); a
summary whose lines are all well-formed parses completely. -/
theorem summaryParseMalformedAborts (lines : List Text) :
    ((∃ l, l ∈ lines ∧ splitFirst (chars " - ") l = none) →
      parseSummaryLines lines = .error (chars "IndexError: list index out of range"))
    ∧ ((∀ l, l ∈ lines → splitFirst (chars " - ") l ≠ none) →
      ∃ ps, parseSummaryLines lines = .ok ps) := by
  induction lines with
  | nil =>
    constructor
    · rintro ⟨l, hl, _⟩
      simp at hl
    · intro _
      exact ⟨[], rfl⟩
  | cons l ls ih =>
    constructor
    · rintro ⟨l0, hl0, hsp⟩
      rcases List.mem_cons.mp hl0 with rfl | hmem
      · simp [parseSummaryLines, parseSummaryLine_malformed hsp]
      · rcases hsf : splitFirst (chars " - ") l with _ | ⟨pre, post⟩
        · simp [parseSummaryLines, parseSummaryLine_malformed hsf]
        · obtain ⟨p, hp⟩ := parseSummaryLine_wellformed (l := l) (by simp [hsf])
          simp [parseSummaryLines, hp, ih.1 ⟨l0, hmem, hsp⟩]
    · intro hall
      obtain ⟨p, hp⟩ := parseSummaryLine_wellformed (hall l (List.mem_cons_self l ls))
      obtain ⟨ps, hps⟩ := ih.2 (fun x hx => hall x (List.mem_cons_of_mem l hx))
      exact ⟨p :: ps, by simp [parseSummaryLines, hp, hps]⟩

/-- Witness for the amended C7: one malformed line aborts; an all-well-formed
summary parses. -/
theorem summaryParseMalformedAborts_witness :
    parseSummaryLines [chars "Total - 4", chars "oops"]
      = .error (chars "IndexError: list index out of range")
    ∧ ∃ ps, parseSummaryLines [chars "Total - 4"] = .ok ps :=
  ⟨(summaryParseMalformedAborts _).1 ⟨chars "oops", by simp, rfl⟩,
   (summaryParseMalformedAborts _).2 (by
      intro l hl
      simp at hl
      subst hl
      simp [show splitFirst (chars " - ") (chars "Total - 4")
        = some (chars "Total", chars "4") from rfl])⟩

/-- C8.  With at least two columns, the dashboard's bar, line and pie charts
are built deterministically from the first column (x / names) and the second
column (y / values); only the summary consumes model calls — the chart
construction adds none. -/
theorem dashboardChartsFromFirstTwoColumns (modelO : Text → Nat → Except Text Text)
    (descFn : DataFrame → Text) (st : AppState) (df : DataFrame)
    (c0 c1 : Text) (rest : List Text) (s : Option (List (Text × Text))) (calls : Nat)
    (hst : st.df = some df) (hcols : df.cols = c0 :: c1 :: rest)
    (hsum : get_summary_from_gpt modelO descFn df 3 = (.ok s, calls)) :
    generate_dashboard modelO descFn st =
      (.ok { lineG := ⟨chars "line", c0, c1, chars "Line Graph"⟩
           , barG := ⟨chars "bar", c0, c1, chars "Bar Graph"⟩
           , pieG := ⟨chars "pie", c0, c1, chars "Pie Chart"⟩
           , graphs := [(chars "bargraph", chars "bargraph.html"),
                        (chars "linegraph", chars "linegraph.html"),
                        (chars "piechart", chars "piechart.html")]
           , summaryPath := chars "static/summary.json"
           , summaryContent := s }, calls) := by
  simp [generate_dashboard, hst, hsum, create_dashboard, hcols]

/-- Witness for C8 on the dataset with columns A and B. -/
theorem dashboardChartsFromFirstTwoColumns_witness :
    generate_dashboard (fun _ _ => .ok (chars "A - 1\nB - 2")) (fun _ => chars "stats")
      ⟨some ⟨[chars "A", chars "B"], 3⟩⟩ =
      (.ok { lineG := ⟨chars "line", chars "A", chars "B", chars "Line Graph"⟩
           , barG := ⟨chars "bar", chars "A", chars "B", chars "Bar Graph"⟩
           , pieG := ⟨chars "pie", chars "A", chars "B", chars "Pie Chart"⟩
           , graphs := [(chars "bargraph", chars "bargraph.html"),
                        (chars "linegraph", chars "linegraph.html"),
                        (chars "piechart", chars "piechart.html")]
           , summaryPath := chars "static/summary.json"
           , summaryContent := some [(chars "A", chars "1"), (chars "B", chars "2")] }, 1) :=
  dashboardChartsFromFirstTwoColumns _ _ _ ⟨[chars "A", chars "B"], 3⟩
    (chars "A") (chars "B") [] (some [(chars "A", chars "1"), (chars "B", chars "2")]) 1
    rfl rfl rfl

end DashboardBackend
